import Mathlib

/-!
Verification of the HezarDastan core against its specification.

The development shallowly embeds the Rust sources:
* `src/security/traffic_obfuscation.rs` — the `Obfuscator` with
  `obfuscate_data` / `deobfuscate_data`;
* `src/security/kill_switch.rs` — `KillSwitchState`, `KillSwitchManager`
  and the tokio `watch` channel it publishes through;
* `src/protocols/common.rs` — the `ProtocolError` taxonomy;
* `src/protocols/otls_ws.rs` — `OtlsWsProtocol::handle_udp_packet`.

Randomness drawn from `rand::thread_rng()` is made explicit as an input
record (`ObfRng`): each field is one draw the Rust code performs, with the
range the generator guarantees (`gen_range(0..16)` becomes `Fin 16`,
`gen::<u8>()` becomes `Fin 256`, `gen_bool(0.3)` becomes a `Bool`,
`gen_range(0..50)` becomes `Fin 50`).  Bytes are `Nat`s; fallible Rust
functions returning `io::Result` become `Except IoError`.
-/

namespace HezarDastan

/-- Mirror of `std::io::ErrorKind`, restricted to the kinds the sources
construct or inspect (`Other` in `otls_ws.rs` and `aoquic.rs`,
`InvalidInput` in `aoquic.rs`, `WouldBlock` in `main.rs`). -/
inductive IoErrorKind where
  | NotFound
  | InvalidInput
  | WouldBlock
  | Other
deriving DecidableEq, Repr

/-- Mirror of `std::io::Error` as the sources build it:
`io::Error::new(kind, message)`. -/
structure IoError where
  kind : IoErrorKind
  message : String
deriving DecidableEq, Repr

/-- The shared error taxonomy of `src/protocols/common.rs`
(`enum ProtocolError`). -/
inductive ProtocolError where
  | Io : IoError → ProtocolError
  | HandshakeError : String → ProtocolError
  | ObfuscationError : String → ProtocolError
  | ProtocolViolation : String → ProtocolError
  | Other : String → ProtocolError
deriving DecidableEq, Repr

/-- The `From<std::io::Error> for ProtocolError` impl of
`src/protocols/common.rs`: an io error enters the taxonomy as the `Io`
variant. -/
def ProtocolError.fromIo (err : IoError) : ProtocolError :=
  ProtocolError.Io err

/-- Whether a taxonomy value is the `ProtocolViolation` variant. -/
def ProtocolError.isViolation : ProtocolError → Bool
  | ProtocolError.ProtocolViolation _ => true
  | _ => false

/-! ## Traffic obfuscation (`src/security/traffic_obfuscation.rs`)

The Rust `Obfuscator` struct carries only a unit placeholder field and no
configuration, so its methods are embedded as plain functions; the random
draws of `obfuscate_data` are the explicit `ObfRng` argument. -/

/-- One invocation's worth of random draws inside `obfuscate_data`, in
source order: `rng.gen_range(0..16)` for the noise length, the successive
`rng.gen()` bytes pushed as noise, `rng.gen_bool(0.3)` deciding mimicry,
and `rng.gen_range(0..50)` for the delay in milliseconds (the delay only
schedules a sleep and touches no bytes). -/
structure ObfRng where
  noiseLen : Fin 16
  noiseByte : Nat → Fin 256
  mimicry : Bool
  delayMs : Fin 50

/-- The block of `noiseLen` pseudo-random bytes pushed one by one in the
loop `for _ in 0..noise_len { obfuscated_data.push(rng.gen()); }`. -/
def noiseBlock (r : ObfRng) : List Nat :=
  (List.range r.noiseLen.val).map (fun i => (r.noiseByte i).val)

/-- The fixed decoy header of `obfuscate_data`, byte for byte the Rust
literal `b"GET /index.html HTTP/1.1\r\nHost: www.example.com\r\nUser-Agent: Mozilla/5.0\r\n\r\n"`. -/
def fakeHeaderString : String :=
  "GET /index.html HTTP/1.1\r\nHost: www.example.com\r\nUser-Agent: Mozilla/5.0\r\n\r\n"

/-- The decoy header as bytes (the literal is pure ASCII, so the byte
values are the character codes). -/
def fakeHeader : List Nat :=
  fakeHeaderString.data.map Char.toNat

/-- Embedding of `Obfuscator::obfuscate_data`: copy the payload, append
`noiseLen` random bytes, and with the `gen_bool(0.3)` draw prepend the
fixed fake HTTP header.  The random delay of stage 3 affects timing only
and produces no bytes. -/
def Obfuscator.obfuscate_data (r : ObfRng) (data : List Nat) : List Nat :=
  let obfuscated_data := data ++ noiseBlock r
  if r.mimicry then fakeHeader ++ obfuscated_data else obfuscated_data

/-- Embedding of `Obfuscator::deobfuscate_data`: the source returns
`Ok(data.to_vec())`, an unconditional copy of its input. -/
def Obfuscator.deobfuscate_data (data : List Nat) : Except IoError (List Nat) :=
  Except.ok data

/-- The noise block has exactly the drawn length. -/
theorem noiseBlock_length (r : ObfRng) : (noiseBlock r).length = r.noiseLen.val := by
  simp [noiseBlock]

/-- The fake HTTP header is 76 bytes long. -/
theorem fakeHeader_length : fakeHeader.length = 76 := by
  decide

/-- Concrete random draws refuting the round-trip law: one noise byte with
value 7, no mimicry header. -/
def c1Rng : ObfRng :=
  ObfRng.mk 1 (fun _ => 7) false 0

/-- Claim C1: the round-trip law fails on the code.  For the empty payload
and the draws of `c1Rng`, `obfuscate_data` produces the single noise byte
`[7]` and `deobfuscate_data` hands it back unchanged, so the round trip
returns `[7]`, not the original empty payload. -/
theorem C1_roundtrip_fails_on_code :
    Obfuscator.deobfuscate_data (Obfuscator.obfuscate_data c1Rng []) =
      Except.ok [7] ∧ ([7] : List Nat) ≠ ([] : List Nat) := by
  exact ⟨rfl, by decide⟩

/-- Claim C2: malformed input is accepted, not rejected.  The one-byte
buffer `[255]` is too short to carry any structural marker or noise-length
prefix, yet `deobfuscate_data` returns it as an accepted payload instead
of an `ObfuscationError`. -/
theorem C2_malformed_input_accepted :
    Obfuscator.deobfuscate_data [255] = Except.ok [255] := by
  exact rfl

/-- Claim C9: `deobfuscate_data` is the total identity on its input — for
every byte sequence it returns `Ok` with an exact copy, never an error. -/
theorem C9_deobfuscate_is_identity (data : List Nat) :
    Obfuscator.deobfuscate_data data = Except.ok data := by
  exact rfl

/-- Concrete random draws for the noise-padding claim: three noise bytes
with value 9, no mimicry header. -/
def c7Rng : ObfRng :=
  ObfRng.mk 3 (fun _ => 9) false 0

/-- Claim C7: the noise stage writes no length prefix.  For payload
`[1, 2]` and the draws of `c7Rng`, the output is exactly the payload
followed by the three raw noise bytes — no byte anywhere records the
noise length 3, so the inverse cannot know how many bytes to strip. -/
theorem C7_noise_has_no_length_prefix :
    Obfuscator.obfuscate_data c7Rng [1, 2] = [1, 2, 9, 9, 9] := by
  decide

/-- Claim C10: the output of `obfuscate_data` is the payload verbatim,
preceded by nothing or the fixed 76-byte fake header and followed by 0–15
noise bytes, so the output length lies between `len(P)` and
`len(P) + 15 + 76`. -/
theorem C10_output_shape (r : ObfRng) (data : List Nat) :
    ∃ pre noise,
      Obfuscator.obfuscate_data r data = pre ++ (data ++ noise) ∧
      (pre = [] ∨ pre = fakeHeader) ∧
      noise.length ≤ 15 ∧
      data.length ≤ (Obfuscator.obfuscate_data r data).length ∧
      (Obfuscator.obfuscate_data r data).length ≤ data.length + 15 + 76 := by
  have hnb : (noiseBlock r).length ≤ 15 := by
    have h := r.noiseLen.isLt
    have := noiseBlock_length r
    omega
  cases hm : r.mimicry with
  | false =>
    refine ⟨[], noiseBlock r, ?_, Or.inl rfl, hnb, ?_, ?_⟩
    · simp [Obfuscator.obfuscate_data, hm]
    · simp [Obfuscator.obfuscate_data, hm]
    · simp [Obfuscator.obfuscate_data, hm]
      omega
  | true =>
    refine ⟨fakeHeader, noiseBlock r, ?_, Or.inr rfl, hnb, ?_, ?_⟩
    · simp [Obfuscator.obfuscate_data, hm]
    · simp [Obfuscator.obfuscate_data, hm]
      omega
    · simp [Obfuscator.obfuscate_data, hm, fakeHeader_length]
      omega

/-! ## Kill switch (`src/security/kill_switch.rs`)

The manager publishes through a `tokio::sync::watch` channel.  A watch
channel is a single shared cell holding the latest value plus a version
counter; `send` overwrites the value and bumps the version, and a receiver
remembers the last version it has seen — `borrow` reads the current value,
`changed` completes exactly when the cell's version differs from the
receiver's.  Only the latest value is retained. -/

/-- Mirror of `enum KillSwitchState`. -/
inductive KillSwitchState where
  | Active
  | Triggered
  | Disabled
deriving DecidableEq, Repr

/-- The shared cell of a `tokio::sync::watch` channel: latest value and
version counter. -/
structure WatchChannel where
  value : KillSwitchState
  version : Nat
deriving DecidableEq, Repr

/-- The effect of `watch::Sender::send`: store the new value and bump the
version (tokio marks the channel changed even when the value is equal). -/
def watchSend (c : WatchChannel) (s : KillSwitchState) : WatchChannel :=
  WatchChannel.mk s (c.version + 1)

/-- A `watch::Receiver`: it remembers the last version it has observed. -/
structure WatchReceiver where
  seenVersion : Nat
deriving DecidableEq, Repr

/-- Mirror of `struct KillSwitchManager`: the `state_sender`/`state_receiver`
pair shares one cell, modelled as `channel`; `receiver_seen` is the seen
version of the stored `state_receiver` (never polled by the manager, so it
stays at the initial version); `is_enabled` mirrors the `AtomicBool`. -/
structure KillSwitchManager where
  channel : WatchChannel
  receiver_seen : Nat
  is_enabled : Bool
deriving DecidableEq, Repr

/-- Embedding of `KillSwitchManager::new`: `watch::channel(Disabled)`
creates the cell holding `Disabled` at version 0 with the initial value
already seen by the stored receiver; the flag records
`enabled_by_config`. -/
def KillSwitchManager.new (enabled_by_config : Bool) : KillSwitchManager :=
  KillSwitchManager.mk (WatchChannel.mk KillSwitchState.Disabled 0) 0 enabled_by_config

/-- Embedding of `KillSwitchManager::set_state`: when enabled, send the new
state through the channel; when disabled, do nothing (the source only
prints a log line). -/
def KillSwitchManager.set_state (m : KillSwitchManager) (new_state : KillSwitchState) :
    KillSwitchManager :=
  if m.is_enabled then
    KillSwitchManager.mk (watchSend m.channel new_state) m.receiver_seen m.is_enabled
  else m

/-- Embedding of `KillSwitchManager::subscribe_state`: cloning the stored
receiver copies its seen version. -/
def KillSwitchManager.subscribe_state (m : KillSwitchManager) : WatchReceiver :=
  WatchReceiver.mk m.receiver_seen

/-- The state any subscriber reads through `Receiver::borrow`: the current
value of the shared cell. -/
def KillSwitchManager.observed_state (m : KillSwitchManager) : KillSwitchState :=
  m.channel.value

/-- A sequence of `set_state` calls, applied in order. -/
def KillSwitchManager.setStates (m : KillSwitchManager) (l : List KillSwitchState) :
    KillSwitchManager :=
  l.foldl KillSwitchManager.set_state m

/-- One scheduling event in an execution of the manager together with one
subscriber: either the writer calls `set_state`, or the subscriber awaits
`changed` and then `borrow`s (which yields a value only when the cell's
version differs from the version already seen). -/
inductive KsEvent where
  | send : KillSwitchState → KsEvent
  | recv : KsEvent
deriving DecidableEq, Repr

/-- The state of such an execution: the manager, the subscriber's receiver,
and the list of values the subscriber has observed so far. -/
structure KsWorld where
  manager : KillSwitchManager
  receiver : WatchReceiver
  observed : List KillSwitchState
deriving DecidableEq, Repr

/-- Small-step semantics of one event.  On `recv`, if the channel version
equals the seen version, `changed` is still pending and nothing is
observed; otherwise the receiver marks the current version seen and
observes the current value — the watch cell holds only the latest value,
so intermediate values overwritten meanwhile are gone. -/
def ksStep (w : KsWorld) : KsEvent → KsWorld
  | KsEvent.send s => KsWorld.mk (KillSwitchManager.set_state w.manager s) w.receiver w.observed
  | KsEvent.recv =>
    if w.manager.channel.version = w.receiver.seenVersion then w
    else
      KsWorld.mk w.manager (WatchReceiver.mk w.manager.channel.version)
        (w.observed ++ [w.manager.channel.value])

/-- Run a whole schedule of events. -/
def ksRun (w : KsWorld) (events : List KsEvent) : KsWorld :=
  events.foldl ksStep w

/-- The execution start used in the claims: a manager constructed enabled
and one fresh subscriber, nothing observed yet. -/
def ksInit : KsWorld :=
  KsWorld.mk (KillSwitchManager.new true)
    (KillSwitchManager.subscribe_state (KillSwitchManager.new true)) []

/-- The schedule in which the subscriber awaits each change before the
writer publishes the next value. -/
def ksInterleaved : List KillSwitchState → List KsEvent
  | [] => []
  | s :: rest => KsEvent.send s :: KsEvent.recv :: ksInterleaved rest

/-- With the kill switch disabled, `set_state` leaves the manager
untouched. -/
theorem set_state_not_enabled (m : KillSwitchManager) (s : KillSwitchState)
    (h : m.is_enabled = false) : KillSwitchManager.set_state m s = m := by
  simp [KillSwitchManager.set_state, h]

/-- With the kill switch disabled, any sequence of `set_state` calls leaves
the manager untouched. -/
theorem setStates_not_enabled (l : List KillSwitchState) :
    ∀ (m : KillSwitchManager), m.is_enabled = false →
      KillSwitchManager.setStates m l = m := by
  induction l with
  | nil =>
    intro m _
    rfl
  | cons s rest ih =>
    intro m h
    have hstep : KillSwitchManager.setStates m (s :: rest) =
        KillSwitchManager.setStates (KillSwitchManager.set_state m s) rest := rfl
    rw [hstep, set_state_not_enabled m s h]
    exact ih m h

/-- Claim C3: a manager constructed with `enabled_by_config = false` holds
the observable state at `Disabled` under every sequence of `set_state`
calls — each call is a no-op. -/
theorem C3_disabled_manager_stays_disabled (l : List KillSwitchState) :
    KillSwitchManager.observed_state
      (KillSwitchManager.setStates (KillSwitchManager.new false) l) =
      KillSwitchState.Disabled := by
  rw [setStates_not_enabled l (KillSwitchManager.new false) rfl]
  rfl

/-- Claim C8, counterexample: a manager constructed with
`enabled_by_config = true` also starts with observable state `Disabled`,
yet a single `set_state(Active)` call moves the observed state out of
`Disabled` — so `Disabled` is not free of outgoing transitions for every
manager however constructed. -/
theorem C8_counterexample_enabled_manager_leaves_disabled :
    KillSwitchManager.observed_state (KillSwitchManager.new true) =
      KillSwitchState.Disabled ∧
    KillSwitchManager.observed_state
      (KillSwitchManager.set_state (KillSwitchManager.new true) KillSwitchState.Active) =
      KillSwitchState.Active ∧
    KillSwitchState.Active ≠ KillSwitchState.Disabled := by
  exact ⟨rfl, rfl, by decide⟩

/-- Claim C8 as amended: only for a manager whose configuration flag is off
is `Disabled` permanent — the observable state of a disabled manager never
changes under any sequence of `set_state` calls. -/
theorem C8_disabled_config_state_frozen (m : KillSwitchManager)
    (h : m.is_enabled = false) (l : List KillSwitchState) :
    KillSwitchManager.observed_state (KillSwitchManager.setStates m l) =
      KillSwitchManager.observed_state m := by
  rw [setStates_not_enabled l m h]

/-- Witness for `C8_disabled_config_state_frozen` at the disabled manager
and the call sequence `[Active, Triggered]`. -/
theorem C8_disabled_config_state_frozen_witness :
    (KillSwitchManager.new false).is_enabled = false ∧
    KillSwitchManager.observed_state
      (KillSwitchManager.setStates (KillSwitchManager.new false)
        [KillSwitchState.Active, KillSwitchState.Triggered]) =
      KillSwitchManager.observed_state (KillSwitchManager.new false) := by
  exact ⟨rfl, C8_disabled_config_state_frozen (KillSwitchManager.new false) rfl
    [KillSwitchState.Active, KillSwitchState.Triggered]⟩

/-- Claim C4, counterexample: the writer publishes Active, Triggered,
Active before the subscriber is scheduled; the subscriber then polls three
times but observes only `[Active]` — the watch cell retained only the
latest value, so `Triggered`, which differs from its predecessor, was
skipped.  The claimed observation `[Active, Triggered, Active]` does not
occur. -/
theorem C4_counterexample_lagging_subscriber_skips_value :
    (ksRun ksInit
      [KsEvent.send KillSwitchState.Active, KsEvent.send KillSwitchState.Triggered,
        KsEvent.send KillSwitchState.Active, KsEvent.recv, KsEvent.recv,
        KsEvent.recv]).observed = [KillSwitchState.Active] ∧
    ([KillSwitchState.Active] : List KillSwitchState) ≠
      [KillSwitchState.Active, KillSwitchState.Triggered, KillSwitchState.Active] := by
  exact ⟨rfl, by decide⟩

/-- Invariant run of the interleaved schedule: if the manager is enabled
and the subscriber has seen the current version, the subscriber observes
exactly the published sequence. -/
theorem ksRun_interleaved (l : List KillSwitchState) :
    ∀ (w : KsWorld), w.manager.is_enabled = true →
      w.receiver.seenVersion = w.manager.channel.version →
      (ksRun w (ksInterleaved l)).observed = w.observed ++ l := by
  induction l with
  | nil =>
    intro w _ _
    simp [ksInterleaved, ksRun]
  | cons s rest ih =>
    intro w h1 h2
    obtain ⟨⟨⟨val, ver⟩, rseen, en⟩, ⟨seen⟩, obs⟩ := w
    simp only [KsWorld.manager, KillSwitchManager.is_enabled, KsWorld.receiver,
      WatchReceiver.seenVersion, KillSwitchManager.channel, WatchChannel.version] at h1 h2
    subst h1
    subst h2
    have hrun : ksRun (KsWorld.mk (KillSwitchManager.mk (WatchChannel.mk val seen) rseen true)
        (WatchReceiver.mk seen) obs) (ksInterleaved (s :: rest)) =
        ksRun (KsWorld.mk (KillSwitchManager.mk (WatchChannel.mk s (seen + 1)) rseen true)
          (WatchReceiver.mk (seen + 1)) (obs ++ [s])) (ksInterleaved rest) := by
      simp [ksInterleaved, ksRun, ksStep, KillSwitchManager.set_state, watchSend,
        Nat.succ_ne_self]
    rw [hrun, ih _ rfl rfl]
    simp

/-- Claim C4 as amended: a subscriber that awaits each change before the
next `set_state` call observes exactly the published sequence of values —
in particular Active, Triggered, Active in that order — while a subscriber
scheduled only after several sends observes just the latest value. -/
theorem C4_keeping_up_subscriber_observes_sequence (l : List KillSwitchState) :
    (ksRun ksInit (ksInterleaved l)).observed = l := by
  have h := ksRun_interleaved l ksInit rfl rfl
  simpa [ksInit] using h

/-! ## Protocol handlers (`src/protocols/otls_ws.rs`, `src/protocols/aoquic.rs`)

`OtlsWsProtocol` carries no fields, so its methods are plain functions.
The socket, buffer and peer-address arguments of a datagram invocation are
carried explicitly so the theorems quantify over every invocation. -/

/-- An opaque handle to a bound UDP socket (the handler never inspects
it). -/
structure UdpSocketHandle where
  id : Nat
deriving DecidableEq, Repr

/-- A peer socket address (the handler only logs it). -/
structure SocketAddr where
  addr : String
deriving DecidableEq, Repr

/-- An opaque handle to an accepted TCP stream. -/
structure TcpStreamHandle where
  id : Nat
deriving DecidableEq, Repr

/-- Embedding of `OtlsWsProtocol::handle_udp_packet`: the source
unconditionally returns
`Err(io::Error::new(io::ErrorKind::Other, "OTLS/WS does not handle UDP packets."))`
after logging, for every socket, buffer and peer address. -/
def OtlsWsProtocol.handle_udp_packet (_socket : UdpSocketHandle) (_buf : List Nat)
    (_peer_addr : SocketAddr) : Except IoError Unit :=
  Except.error (IoError.mk IoErrorKind.Other "OTLS/WS does not handle UDP packets.")

/-- Whether a datagram-handler result is, through the repository's
`From<std::io::Error> for ProtocolError` impl, the `ProtocolViolation`
variant of the shared taxonomy. -/
def udpResultIsViolation (res : Except IoError Unit) : Bool :=
  match res with
  | Except.error e => ProtocolError.isViolation (ProtocolError.fromIo e)
  | Except.ok _ => false

/-- Claim C5, counterexample: a concrete datagram invocation of the OtlsWs
handler yields the fixed io error of kind `Other`, which the shared
taxonomy classifies as `Io`, not as the `ProtocolViolation` variant. -/
theorem C5_counterexample_error_kind_not_violation :
    OtlsWsProtocol.handle_udp_packet (UdpSocketHandle.mk 0) []
      (SocketAddr.mk "127.0.0.1:12345") =
      Except.error (IoError.mk IoErrorKind.Other "OTLS/WS does not handle UDP packets.") ∧
    udpResultIsViolation (OtlsWsProtocol.handle_udp_packet (UdpSocketHandle.mk 0) []
      (SocketAddr.mk "127.0.0.1:12345")) = false := by
  exact ⟨rfl, rfl⟩

/-- Claim C5 as amended: every datagram invocation of the OtlsWs handler
returns an error — the fixed io error of kind `Other` — rather than
silently succeeding; the error is not the `ProtocolViolation` variant of
the shared taxonomy. -/
theorem C5_otls_ws_rejects_every_datagram (socket : UdpSocketHandle) (buf : List Nat)
    (peer_addr : SocketAddr) :
    OtlsWsProtocol.handle_udp_packet socket buf peer_addr =
      Except.error (IoError.mk IoErrorKind.Other "OTLS/WS does not handle UDP packets.") := by
  exact rfl

/-- Modelled from the spec: `AoQuicProtocol` and its stream handler are
absent from `src/` — `main.rs` calls `aoquic::AoQuicProtocol::new()` and
the `ObfuscatedProtocol` trait declares `handle_tcp_stream`, but
`aoquic.rs` defines only the client-side `AoQuicStream`.  The spec
requires a handler given the transport kind it does not support to return
`ProtocolViolation` ("AoQuic rejects streams"), so the missing handler is
modelled as returning that variant for every byte-stream invocation. -/
def AoQuicProtocol.handle_tcp_stream (_stream : TcpStreamHandle) :
    Except ProtocolError Unit :=
  Except.error (ProtocolError.ProtocolViolation "AOQUIC does not handle TCP streams.")

/-- Whether a stream-handler result is the `ProtocolViolation` variant of
the shared taxonomy. -/
def streamResultIsViolation (res : Except ProtocolError Unit) : Bool :=
  match res with
  | Except.error e => ProtocolError.isViolation e
  | Except.ok _ => false

/-- Claim C6: every byte-stream invocation of the AoQuic handler returns
the `ProtocolViolation` error kind rather than silently succeeding. -/
theorem C6_aoquic_rejects_every_stream (stream : TcpStreamHandle) :
    streamResultIsViolation (AoQuicProtocol.handle_tcp_stream stream) = true := by
  exact rfl

end HezarDastan
